import Mathlib

/-
Verification of the logging-service Lambda handler (src/aws/lambda_function.py)
against its natural-language specification.

Shallow embedding conventions:
  - A Python log-entry value (type str | int | dict[str, str], see the
    LogEntry alias at line 40 of the source) becomes the inductive JVal.
  - A Python dict is modelled as an association list with first-match
    lookup (Python dicts have unique keys, so first-match agrees).
  - Side effects (CloudWatch calls, SNS publish, logger calls) become an
    explicit trace of Effect values returned by each function.
  - Exceptions raised by the external backends are injected through a
    Backend oracle; the try/except structure of the source determines
    where an injected failure is caught and what trace it leaves.
  - json.loads of the request body is an external library call; a body is
    therefore carried as its parse outcome (a dict, a non-dict JSON value,
    or a JSONDecodeError), plus the library fact json.loads "\x7b\x7d" = empty dict
    for the absent-body default at line 169 of the source.
  - time.strftime "%Y-%m-%d" (line 86) is carried as the explicit
    parameter `today`.
  - Machine strings are Lean String; Python len and slicing count code
    points, matching List Char length/take on .data.
-/

namespace LoggingService

/-- Values stored in a structured log entry: Python str | int | dict[str,str]
(the LogEntry alias, src/aws/lambda_function.py line 40). -/
inductive JVal where
  | vStr (s : String)
  | vInt (n : Int)
  | vObj (m : List (String × String))
deriving DecidableEq

/-- A structured log entry: a Python dict as an ordered association list. -/
abbrev LogEntry := List (String × JVal)

/-- Python truthiness for a JVal: non-empty string, non-zero int,
non-empty dict. -/
def pyTruthy : JVal → Bool
  | .vStr s => s != ""
  | .vInt n => n != 0
  | .vObj m => !m.isEmpty

/-- Whether a JVal is a Python str (isinstance(v, str)). -/
def JVal.isString : JVal → Bool
  | .vStr _ => true
  | _ => false

/-- Python repr of a dict[str,str], as produced by str() on a dict value. -/
def dictRepr (m : List (String × String)) : String :=
  "\x7b" ++
    String.intercalate ", "
      (m.map fun kv => "\x27" ++ kv.1 ++ "\x27: \x27" ++ kv.2 ++ "\x27") ++
  "\x7d"

/-- Python str() applied to a JVal. -/
def pyStr : JVal → String
  | .vStr s => s
  | .vInt n => toString n
  | .vObj m => dictRepr m

/-- Python str.upper() (source values are ASCII), character by character. -/
def pyUpper (s : String) : String := ⟨s.data.map Char.toUpper⟩

/-- Python str.replace applied with arguments underscore and space,
character by character. -/
def underscoreToSpace (s : String) : String :=
  ⟨s.data.map fun c => if c = '_' then ' ' else c⟩

/-- Helper for Python str.title(): the Bool tracks whether the previous
character was alphabetic. -/
def titleChars : Bool → List Char → List Char
  | _, [] => []
  | prevAlpha, c :: cs =>
      (if c.isAlpha then (if prevAlpha then c.toLower else c.toUpper) else c)
        :: titleChars c.isAlpha cs

/-- Python str.title() (ASCII): first letter of each alphabetic run
uppercased, the rest lowercased. -/
def pyTitle (s : String) : String := ⟨titleChars false s.data⟩

/-- Python len() on a string (counts code points). -/
def pyLen (s : String) : Nat := s.data.length

/-- Python slicing s[:n] on a string (counts code points). -/
def pyTake (s : String) (n : Nat) : String := ⟨s.data.take n⟩

/-- Python dict.get on a log entry (first match; dict keys are unique). -/
def dGet : LogEntry → String → Option JVal
  | [], _ => none
  | (k2, v) :: rest, k => if k2 = k then some v else dGet rest k

/-- Python dict.get on a headers mapping (str → str). -/
def hGet : List (String × String) → String → Option String
  | [], _ => none
  | (k2, v) :: rest, k => if k2 = k then some v else hGet rest k

/-- JSON string escaping for json.dumps (quote and backslash; the payloads
in scope are ASCII without control characters). -/
def jsonEscape (s : String) : String :=
  String.join (s.data.map fun c =>
    if c = '"' then "\\\"" else if c = '\\' then "\\\\" else String.singleton c)

/-- json.dumps of a single JVal. -/
def jvalJson : JVal → String
  | .vStr s => "\"" ++ jsonEscape s ++ "\""
  | .vInt n => toString n
  | .vObj m =>
      "\x7b" ++
        String.intercalate ", "
          (m.map fun kv => "\"" ++ jsonEscape kv.1 ++ "\": \"" ++ jsonEscape kv.2 ++ "\"") ++
      "\x7d"

/-- json.dumps of a log entry (Python default separators). -/
def jsonDumps (r : LogEntry) : String :=
  "\x7b" ++
    String.intercalate ", "
      (r.map fun kv => "\"" ++ jsonEscape kv.1 ++ "\": " ++ jvalJson kv.2) ++
  "\x7d"

/-- Environment configuration loaded at lines 26-29 of the source.
logGroupPref stands for the LOG_GROUP_PREFIX environment variable. -/
structure Config where
  logGroupPref : String
  RETENTION_DAYS : Int
  SNS_TOPIC_ARN : String
  SECRET_TOKEN : String
deriving DecidableEq

/-- Observable side effects: CloudWatch Logs calls, SNS publish, and
logger output. -/
inductive Effect where
  | createLogGroup (group : String)
  | putRetentionPolicy (group : String) (days : Int)
  | createLogStream (group stream : String)
  | putLogEvents (group stream message : String)
  | snsPublish (topic subject message : String)
  | logInfo (msg : String)
  | logError (msg : String)
deriving DecidableEq

/-- Failure oracle for the external backends.
groupExists / streamExists: the create call raises
ResourceAlreadyExistsException (caught inside ensure_log_group /
ensure_log_stream, lines 59 and 70).
cwFail: put_log_events raises an unexpected exception (caught at line 105).
snsFail: sns_client.publish raises (caught at line 147). -/
structure Backend where
  groupExists : Bool
  streamExists : Bool
  cwFail : Bool
  snsFail : Bool
deriving DecidableEq

/-- ensure_log_group (lines 51-60): create the group and set retention;
ResourceAlreadyExistsException from the create is swallowed, in which case
the retention policy is not re-applied. -/
def ensure_log_group (cfg : Config) (bk : Backend) (group_name : String) : List Effect :=
  if bk.groupExists then []
  else [.createLogGroup group_name, .putRetentionPolicy group_name cfg.RETENTION_DAYS]

/-- ensure_log_stream (lines 63-71): create the stream;
ResourceAlreadyExistsException is swallowed. -/
def ensure_log_stream (bk : Backend) (group_name stream_name : String) : List Effect :=
  if bk.streamExists then [] else [.createLogStream group_name stream_name]

/-- Stream name derivation (lines 84-87):
client_name_raw = log_entry.get("client_name");
str(client_name_raw) if client_name_raw else time.strftime("%Y-%m-%d"),
with `today` standing for the strftime result. -/
def streamNameFor (today : String) (log_entry : LogEntry) : String :=
  match dGet log_entry "client_name" with
  | some v => if pyTruthy v then pyStr v else today
  | none => today

/-- Group name derivation (line 89): LOG_GROUP_PREFIX ++ "/" ++ service_name. -/
def groupNameFor (cfg : Config) (service_name : String) : String :=
  cfg.logGroupPref ++ "/" ++ service_name

/-- log_to_cloudwatch (lines 74-106). The whole body is inside try/except
Exception, so a KeyError from log_entry["service_name"] (line 83) or an
injected backend failure ends in logger.error (line 106) and never
propagates. The interpolated exception text in the logged message is
abstracted to its static part. -/
def log_to_cloudwatch (cfg : Config) (bk : Backend) (today : String)
    (log_entry : LogEntry) : List Effect :=
  match dGet log_entry "service_name" with
  | none => [.logError "Failed to send log to CloudWatch"]
  | some sv =>
      let service_name := pyStr sv
      let group_name := groupNameFor cfg service_name
      let stream_name := streamNameFor today log_entry
      ensure_log_group cfg bk group_name ++
        ensure_log_stream bk group_name stream_name ++
        (if bk.cwFail then [.logError "Failed to send log to CloudWatch"]
         else [.putLogEvents group_name stream_name (jsonDumps log_entry)])

/-- Level normalization (lines 116-117):
str(log_entry.get("level", "")).upper(). -/
def levelOf (log_entry : LogEntry) : String :=
  pyUpper (match dGet log_entry "level" with | some v => pyStr v | none => "")

/-- Severity check (line 118): level in ["ERROR", "FATAL"]. -/
def qualifiesForAlert (log_entry : LogEntry) : Bool :=
  levelOf log_entry == "ERROR" || levelOf log_entry == "FATAL"

/-- The message_parts loop (lines 126-129): one "Key: Value" line per
truthy field, in iteration order, key underscores replaced by spaces and
then title-cased. -/
def buildMessageParts : LogEntry → List String
  | [] => []
  | (key, value) :: rest =>
      if pyTruthy value then
        (pyTitle (underscoreToSpace key) ++ ": " ++ pyStr value)
          :: buildMessageParts rest
      else buildMessageParts rest

/-- service_name as used in the alert subject (line 122):
str(log_entry.get("service_name", "unknown")). -/
def serviceNameForAlert (log_entry : LogEntry) : String :=
  match dGet log_entry "service_name" with | some v => pyStr v | none => "unknown"

/-- The untruncated alert subject (line 133):
f-string of service_name, level and "Notification". -/
def alertSubjectRaw (log_entry : LogEntry) : String :=
  serviceNameForAlert log_entry ++ " " ++ levelOf log_entry ++ " Notification"

/-- Subject truncation (lines 135-136): if len(subject) > 100 then
subject[:97] + "..." . -/
def alertSubject (log_entry : LogEntry) : String :=
  if 100 < pyLen (alertSubjectRaw log_entry) then
    pyTake (alertSubjectRaw log_entry) 97 ++ "..."
  else alertSubjectRaw log_entry

/-- The alert message body (lines 131, 138-139): newline-joined parts,
prefixed by the Client line when client_name_raw is truthy. -/
def alertMessage (log_entry : LogEntry) : String :=
  let message := String.intercalate "\n" (buildMessageParts log_entry)
  match dGet log_entry "client_name" with
  | some v =>
      if pyTruthy v then "Client: " ++ pyStr v ++ "\n\n" ++ message else message
  | none => message

/-- notify_error_sns (lines 109-148). The level gate (lines 116-119) is
outside the try and is pure; the publish (line 141) is inside try/except,
so an injected SNS failure ends in logger.error (line 148). -/
def notify_error_sns (cfg : Config) (bk : Backend) (log_entry : LogEntry) : List Effect :=
  if qualifiesForAlert log_entry then
    (if bk.snsFail then [.logError "Error sending SNS message"]
     else [.snsPublish cfg.SNS_TOPIC_ARN (alertSubject log_entry) (alertMessage log_entry)])
  else []

/-- Outcome of json.loads on the request body text:
a dict, a non-dict JSON value (list, string, number, bool, null), or a
JSONDecodeError. json.loads is an external library call, so a body is
carried as its parse outcome. -/
inductive BodyParse where
  | obj (record : LogEntry)
  | nonObj
  | malformed
deriving DecidableEq

/-- The request event: the headers mapping and the body field
(none when the event has no "body" key at all). -/
structure Event where
  headers : List (String × String)
  body : Option BodyParse
deriving DecidableEq

/-- The LambdaResponse TypedDict (lines 45-48; the optional headers field
is never set by this handler). -/
structure LambdaResponse where
  statusCode : Nat
  body : String
deriving DecidableEq

/-- json.dumps literal for the missing-service_name error (line 176). -/
def missingFieldBody : String := "\x7b\"error\": \"Missing required field: service_name\"\x7d"

/-- json.dumps literal for the JSONDecodeError response (line 190). -/
def invalidJsonBody : String := "\x7b\"error\": \"Invalid JSON format.\"\x7d"

/-- json.dumps literal for the generic 500 response (line 196). -/
def internalErrorBody : String := "\x7b\"error\": \"Internal server error.\"\x7d"

/-- json.dumps literal for the success response (line 184). -/
def successBody : String := "\x7b\"message\": \"Log saved to CloudWatch.\"\x7d"

/-- The validation condition at line 173:
not service_name or not isinstance(service_name, str), where
service_name = body.get("service_name") (line 172). -/
def serviceNameInvalid (record : LogEntry) : Bool :=
  match dGet record "service_name" with
  | none => true
  | some v => !pyTruthy v || !v.isString

/-- lambda_handler (lines 151-197). Control flow:
token lookup (lines 159-161) and comparison (line 163); body default and
parse (line 169, with json.loads "\x7b\x7d" giving the empty dict for an absent
body); a non-dict parse result makes body.get at line 172 raise
AttributeError, caught by except Exception (line 192) as 500;
service_name validation (lines 172-177); then the two best-effort calls
(lines 179-180) and the 200 response (lines 182-185). -/
def lambda_handler (cfg : Config) (bk : Backend) (today : String)
    (event : Event) : LambdaResponse × List Effect :=
  let token := hGet event.headers "x-custom-auth"
  if token ≠ some cfg.SECRET_TOKEN then
    (⟨403, "Unauthorized"⟩, [.logInfo "Denied unauthorized request"])
  else
    match event.body.getD (BodyParse.obj []) with
    | .malformed => (⟨400, invalidJsonBody⟩, [.logError "Failed to parse request body."])
    | .nonObj => (⟨500, internalErrorBody⟩, [.logError "Error processing log"])
    | .obj record =>
        if serviceNameInvalid record then (⟨400, missingFieldBody⟩, [])
        else
          (⟨200, successBody⟩,
            log_to_cloudwatch cfg bk today record ++ notify_error_sns cfg bk record)

/-- The default configuration from lines 26-29 of the source. -/
def cfg0 : Config := ⟨"/wpwilson", 90, "Default_Topic", "default-secret-token"⟩

/-- A backend on which every call succeeds. -/
def bk0 : Backend := ⟨false, false, false, false⟩

/-- A backend on which both put_log_events and sns publish raise. -/
def bkBoth : Backend := ⟨false, false, true, true⟩

/-- A fixed current date for concrete instances. -/
def d0 : String := "2026-10-12"

/-- Headers carrying the secret under the exact lowercase name. -/
def hdrs0 : List (String × String) := [("x-custom-auth", "default-secret-token")]

/-- The record from the worked example in the specification. -/
def recBilling : LogEntry :=
  [("service_name", .vStr "billing"), ("level", .vStr "FATAL"),
   ("client_name", .vStr "acme"), ("message", .vStr "disk full")]

/-- A record with a non-qualifying level. -/
def recInfo : LogEntry := [("service_name", .vStr "svc"), ("level", .vStr "info")]

/-- A record whose service_name is an int, not a str. -/
def recBadName : LogEntry := [("service_name", .vInt 7), ("level", .vStr "ERROR")]

/-- A qualifying record with client_name present but empty. -/
def recEmptyClient : LogEntry :=
  [("service_name", .vStr "svc"), ("level", .vStr "ERROR"), ("client_name", .vStr "")]

/-- A qualifying record with no client_name. -/
def recErr : LogEntry := [("service_name", .vStr "svc"), ("level", .vStr "ERROR")]

/-- A 120-character service name, to exercise subject truncation. -/
def longName : String := ⟨List.replicate 120 'a'⟩

/-- A qualifying record whose subject exceeds 100 characters. -/
def recLong : LogEntry := [("service_name", .vStr longName), ("level", .vStr "fatal")]

/-- Appending strings concatenates their character lists. -/
theorem strData_append (a b : String) : (a ++ b).data = a.data ++ b.data := by
  cases a
  cases b
  rfl

/-- Dropping the length of the left part of an append leaves the right part. -/
theorem drop_append_of_length (l₁ l₂ : List Char) : (l₁ ++ l₂).drop l₁.length = l₂ := by
  induction l₁ with
  | nil => rfl
  | cons a t ih => simp [ih]

/-- The message_parts loop is a filterMap over the record. -/
theorem buildMessageParts_eq_filterMap (l : LogEntry) :
    buildMessageParts l = l.filterMap fun kv =>
      if pyTruthy kv.2 then
        some (pyTitle (underscoreToSpace kv.1) ++ ": " ++ pyStr kv.2)
      else none := by
  induction l with
  | nil => rfl
  | cons kv rest ih =>
      cases kv with
      | mk k v =>
          by_cases h : pyTruthy v = true
          · simp [buildMessageParts, List.filterMap, h, ih]
          · simp [buildMessageParts, List.filterMap, h, ih]

/-- A headers map containing no entry for a key looks it up to none. -/
theorem hGet_eq_none (hs : List (String × String)) (k : String)
    (h : ∀ p ∈ hs, p.1 ≠ k) : hGet hs k = none := by
  induction hs with
  | nil => rfl
  | cons p rest ih =>
      have h1 : p.1 ≠ k := h p (List.mem_cons_self p rest)
      have h2 : ∀ q ∈ rest, q.1 ≠ k := fun q hq => h q (List.mem_cons_of_mem p hq)
      cases p with
      | mk k2 v => simp [hGet, h1, ih h2]

/-- Claim C1: a request whose auth header value (looked up under the custom
auth header name) is not exactly the configured shared secret, the absent
case included, gets status 403 with plain-text body Unauthorized, only an
informational log entry is produced, and the request body is never
consulted: any body yields the same response and trace. -/
theorem C1_unauthorized (cfg : Config) (bk : Backend) (today : String) (event : Event)
    (hauth : hGet event.headers "x-custom-auth" ≠ some cfg.SECRET_TOKEN) :
    lambda_handler cfg bk today event =
      (⟨403, "Unauthorized"⟩, [Effect.logInfo "Denied unauthorized request"]) ∧
    ∀ b : Option BodyParse,
      lambda_handler cfg bk today ⟨event.headers, b⟩ =
        (⟨403, "Unauthorized"⟩, [Effect.logInfo "Denied unauthorized request"]) := by
  constructor
  · simp [lambda_handler, hauth]
  · intro b
    simp [lambda_handler, hauth]

/-- Witness for C1 at the empty header map. -/
theorem C1_unauthorized_witness :
    hGet ([] : List (String × String)) "x-custom-auth" ≠ some cfg0.SECRET_TOKEN ∧
    (lambda_handler cfg0 bk0 d0 ⟨[], none⟩ =
      (⟨403, "Unauthorized"⟩, [Effect.logInfo "Denied unauthorized request"]) ∧
     ∀ b : Option BodyParse,
       lambda_handler cfg0 bk0 d0 ⟨[], b⟩ =
         (⟨403, "Unauthorized"⟩, [Effect.logInfo "Denied unauthorized request"])) :=
  ⟨by decide, C1_unauthorized cfg0 bk0 d0 ⟨[], none⟩ (by decide)⟩

/-- Claim C2: an authenticated request whose parsed body has no
service_name usable as a non-empty string (absent, empty, or non-string)
gets status 400 with the missing-required-field JSON body, and the effect
trace is empty: neither log_to_cloudwatch nor notify_error_sns runs. -/
theorem C2_missing_service_name (cfg : Config) (bk : Backend) (today : String)
    (hs : List (String × String)) (record : LogEntry)
    (hauth : hGet hs "x-custom-auth" = some cfg.SECRET_TOKEN)
    (hsn : ∀ s, dGet record "service_name" = some (JVal.vStr s) → s = "") :
    lambda_handler cfg bk today ⟨hs, some (BodyParse.obj record)⟩ =
      (⟨400, missingFieldBody⟩, []) := by
  have hinv : serviceNameInvalid record = true := by
    unfold serviceNameInvalid
    cases h : dGet record "service_name" with
    | none => rfl
    | some v =>
        cases v with
        | vStr s =>
            have hs0 := hsn s h
            subst hs0
            rfl
        | vInt n => simp [JVal.isString]
        | vObj m => simp [JVal.isString]
  simp [lambda_handler, hauth, hinv]

/-- Witness for C2 at a record whose service_name is an int. -/
theorem C2_missing_service_name_witness :
    hGet hdrs0 "x-custom-auth" = some cfg0.SECRET_TOKEN ∧
    lambda_handler cfg0 bk0 d0 ⟨hdrs0, some (BodyParse.obj recBadName)⟩ =
      (⟨400, missingFieldBody⟩, []) :=
  ⟨by decide, C2_missing_service_name cfg0 bk0 d0 hdrs0 recBadName (by decide)
    (by intro s h; simp [recBadName, dGet] at h)⟩

/-- Claim C10: an authenticated request whose event has no body field is
parsed as the empty JSON object, so it falls into the missing
service_name path: status 400 with the missing-required-field JSON body,
an empty effect trace, and neither the invalid-JSON error nor a 500. -/
theorem C10_absent_body (cfg : Config) (bk : Backend) (today : String)
    (hs : List (String × String))
    (hauth : hGet hs "x-custom-auth" = some cfg.SECRET_TOKEN) :
    lambda_handler cfg bk today ⟨hs, none⟩ = (⟨400, missingFieldBody⟩, []) := by
  simp [lambda_handler, hauth, serviceNameInvalid, dGet]

/-- Witness for C10 at the default configuration. -/
theorem C10_absent_body_witness :
    hGet hdrs0 "x-custom-auth" = some cfg0.SECRET_TOKEN ∧
    lambda_handler cfg0 bk0 d0 ⟨hdrs0, none⟩ = (⟨400, missingFieldBody⟩, []) :=
  ⟨by decide, C10_absent_body cfg0 bk0 d0 hdrs0 (by decide)⟩

/-- Counterexample to claim C3: an authenticated request whose body is
valid JSON but not an object (for instance the text [1,2]) is not given
the claimed 400 invalid-JSON response: the service_name lookup raises
AttributeError, the generic except maps it to 500 with the internal-error
body, and that response differs from the claimed one. -/
theorem C3_counterexample :
    lambda_handler cfg0 bk0 d0 ⟨hdrs0, some BodyParse.nonObj⟩ =
      (⟨500, internalErrorBody⟩, [Effect.logError "Error processing log"]) ∧
    (⟨500, internalErrorBody⟩ : LambdaResponse) ≠ ⟨400, invalidJsonBody⟩ := by
  constructor
  · rfl
  · decide

/-- Claim C3 amended: for an authenticated request, a body that is not
syntactically valid JSON yields 400 with the invalid-JSON body, while a
body that parses as JSON but is not an object yields 500 with the
internal-error body; in both cases the only effect is a logger.error
entry, so no storage or alert side effect occurs. -/
theorem C3_amended (cfg : Config) (bk : Backend) (today : String)
    (hs : List (String × String))
    (hauth : hGet hs "x-custom-auth" = some cfg.SECRET_TOKEN) :
    (lambda_handler cfg bk today ⟨hs, some BodyParse.malformed⟩ =
      (⟨400, invalidJsonBody⟩, [Effect.logError "Failed to parse request body."])) ∧
    (lambda_handler cfg bk today ⟨hs, some BodyParse.nonObj⟩ =
      (⟨500, internalErrorBody⟩, [Effect.logError "Error processing log"])) := by
  constructor
  · simp [lambda_handler, hauth]
  · simp [lambda_handler, hauth]

/-- Witness for the amended C3 at the default configuration. -/
theorem C3_amended_witness :
    hGet hdrs0 "x-custom-auth" = some cfg0.SECRET_TOKEN ∧
    ((lambda_handler cfg0 bk0 d0 ⟨hdrs0, some BodyParse.malformed⟩ =
       (⟨400, invalidJsonBody⟩, [Effect.logError "Failed to parse request body."])) ∧
     (lambda_handler cfg0 bk0 d0 ⟨hdrs0, some BodyParse.nonObj⟩ =
       (⟨500, internalErrorBody⟩, [Effect.logError "Error processing log"]))) :=
  ⟨by decide, C3_amended cfg0 bk0 d0 hdrs0 (by decide)⟩

/-- Claim C4: for a record carrying service_name as a string, the sink
appends to group = configured prefix value ++ "/" ++ service_name and to
stream streamNameFor, which equals client_name when that field is a
non-empty string and the current date string otherwise; and the stream
derivation depends only on the client_name field, so equal
(service_name, client_name) pairs give equal destinations. -/
theorem C4_destination (cfg : Config) (bk : Backend) (today : String)
    (record : LogEntry) (s : String)
    (hsn : dGet record "service_name" = some (JVal.vStr s))
    (hcw : bk.cwFail = false) :
    Effect.putLogEvents (cfg.logGroupPref ++ "/" ++ s) (streamNameFor today record)
        (jsonDumps record) ∈ log_to_cloudwatch cfg bk today record ∧
    (∀ c, dGet record "client_name" = some (JVal.vStr c) → c ≠ "" →
      streamNameFor today record = c) ∧
    (dGet record "client_name" = none → streamNameFor today record = today) ∧
    (∀ r2 : LogEntry, dGet r2 "client_name" = dGet record "client_name" →
      streamNameFor today r2 = streamNameFor today record) := by
  refine ⟨?_, ?_, ?_, ?_⟩
  · simp [log_to_cloudwatch, hsn, hcw, groupNameFor, pyStr]
  · intro c hc hne
    simp [streamNameFor, hc, pyTruthy, pyStr, hne]
  · intro hc
    simp [streamNameFor, hc]
  · intro r2 h2
    simp [streamNameFor, h2]

/-- Witness for C4 at the worked example record of the specification. -/
theorem C4_destination_witness :
    dGet recBilling "service_name" = some (JVal.vStr "billing") ∧
    (Effect.putLogEvents (cfg0.logGroupPref ++ "/" ++ "billing")
        (streamNameFor d0 recBilling) (jsonDumps recBilling)
        ∈ log_to_cloudwatch cfg0 bk0 d0 recBilling ∧
     (∀ c, dGet recBilling "client_name" = some (JVal.vStr c) → c ≠ "" →
       streamNameFor d0 recBilling = c) ∧
     (dGet recBilling "client_name" = none → streamNameFor d0 recBilling = d0) ∧
     (∀ r2 : LogEntry, dGet r2 "client_name" = dGet recBilling "client_name" →
       streamNameFor d0 r2 = streamNameFor d0 recBilling)) :=
  ⟨by decide, C4_destination cfg0 bk0 d0 recBilling "billing" (by decide) rfl⟩

/-- Claim C5: the severity gate uppercases the level field with absence
treated as the empty string; a record whose normalized level is neither
ERROR nor FATAL makes notify_error_sns a no-op with an empty trace, and a
record whose normalized level is ERROR or FATAL leads to exactly one
publish on the configured topic when the backend succeeds. -/
theorem C5_severity (cfg : Config) (bk : Backend) (record : LogEntry) :
    (levelOf record ≠ "ERROR" ∧ levelOf record ≠ "FATAL" →
      notify_error_sns cfg bk record = []) ∧
    ((levelOf record = "ERROR" ∨ levelOf record = "FATAL") → bk.snsFail = false →
      notify_error_sns cfg bk record =
        [Effect.snsPublish cfg.SNS_TOPIC_ARN (alertSubject record) (alertMessage record)]) ∧
    levelOf record =
      pyUpper (match dGet record "level" with | some v => pyStr v | none => "") := by
  refine ⟨?_, ?_, rfl⟩
  · intro h
    simp [notify_error_sns, qualifiesForAlert, h.1, h.2]
  · intro hq hf
    have hq2 : qualifiesForAlert record = true := by
      cases hq with
      | inl h => simp [qualifiesForAlert, h]
      | inr h => simp [qualifiesForAlert, h]
    simp [notify_error_sns, hq2, hf]

/-- Witness for C5: an info-level record publishes nothing, a FATAL record
publishes once. -/
theorem C5_severity_witness :
    (levelOf recInfo ≠ "ERROR" ∧ levelOf recInfo ≠ "FATAL") ∧
    notify_error_sns cfg0 bk0 recInfo = [] := by
  refine ⟨by decide, ?_⟩
  exact (C5_severity cfg0 bk0 recInfo).1 (by decide)

/-- Claim C6: for a validated record, the response is 200 with the
success body for every backend failure pattern; the trace is the sink
trace followed by the dispatcher trace; the dispatcher's behaviour
depends only on the SNS failure flag (so a sink failure never changes
it), and the sink's behaviour is independent of the SNS failure flag. -/
theorem C6_isolation (cfg : Config) (today : String)
    (hs : List (String × String)) (record : LogEntry)
    (hauth : hGet hs "x-custom-auth" = some cfg.SECRET_TOKEN)
    (hsn : serviceNameInvalid record = false) :
    ∀ bk : Backend,
      (lambda_handler cfg bk today ⟨hs, some (BodyParse.obj record)⟩).1 =
        ⟨200, successBody⟩ ∧
      (lambda_handler cfg bk today ⟨hs, some (BodyParse.obj record)⟩).2 =
        log_to_cloudwatch cfg bk today record ++ notify_error_sns cfg bk record ∧
      notify_error_sns cfg bk record =
        notify_error_sns cfg ⟨false, false, false, bk.snsFail⟩ record ∧
      log_to_cloudwatch cfg bk today record =
        log_to_cloudwatch cfg ⟨bk.groupExists, bk.streamExists, bk.cwFail, false⟩ today record := by
  intro bk
  refine ⟨?_, ?_, rfl, rfl⟩
  · simp [lambda_handler, hauth, hsn]
  · simp [lambda_handler, hauth, hsn]

/-- Witness for C6 on a backend where both the CloudWatch append and the
SNS publish raise. -/
theorem C6_isolation_witness :
    hGet hdrs0 "x-custom-auth" = some cfg0.SECRET_TOKEN ∧
    serviceNameInvalid recErr = false ∧
    ((lambda_handler cfg0 bkBoth d0 ⟨hdrs0, some (BodyParse.obj recErr)⟩).1 =
       ⟨200, successBody⟩ ∧
     (lambda_handler cfg0 bkBoth d0 ⟨hdrs0, some (BodyParse.obj recErr)⟩).2 =
       log_to_cloudwatch cfg0 bkBoth d0 recErr ++ notify_error_sns cfg0 bkBoth recErr ∧
     notify_error_sns cfg0 bkBoth recErr =
       notify_error_sns cfg0 ⟨false, false, false, bkBoth.snsFail⟩ recErr ∧
     log_to_cloudwatch cfg0 bkBoth d0 recErr =
       log_to_cloudwatch cfg0 ⟨bkBoth.groupExists, bkBoth.streamExists, bkBoth.cwFail, false⟩ d0 recErr) :=
  ⟨by decide, by decide, C6_isolation cfg0 d0 hdrs0 recErr (by decide) (by decide) bkBoth⟩

/-- Claim C7: for a qualifying record and a succeeding SNS backend the
dispatcher publishes with subject alertSubject; the raw subject is the
service name, the normalized level and the word Notification separated by
spaces; a raw subject of at most 100 characters is published unchanged,
and a longer one is cut to its first 97 characters plus an ellipsis
marker, giving exactly 100 characters whose last three are dots. -/
theorem C7_subject (cfg : Config) (bk : Backend) (record : LogEntry)
    (hq : qualifiesForAlert record = true) (hf : bk.snsFail = false) :
    notify_error_sns cfg bk record =
      [Effect.snsPublish cfg.SNS_TOPIC_ARN (alertSubject record) (alertMessage record)] ∧
    alertSubjectRaw record =
      serviceNameForAlert record ++ " " ++ levelOf record ++ " Notification" ∧
    (pyLen (alertSubjectRaw record) ≤ 100 → alertSubject record = alertSubjectRaw record) ∧
    (100 < pyLen (alertSubjectRaw record) →
      alertSubject record = pyTake (alertSubjectRaw record) 97 ++ "..." ∧
      pyLen (alertSubject record) = 100 ∧
      (alertSubject record).data.drop 97 = ['.', '.', '.']) := by
  refine ⟨by simp [notify_error_sns, hq, hf], rfl, ?_, ?_⟩
  · intro hle
    unfold alertSubject
    rw [if_neg (Nat.not_lt.mpr hle)]
  · intro hgt
    have hEq : alertSubject record = pyTake (alertSubjectRaw record) 97 ++ "..." := by
      unfold alertSubject
      rw [if_pos hgt]
    have hData : (alertSubject record).data =
        (alertSubjectRaw record).data.take 97 ++ ['.', '.', '.'] := by
      rw [hEq, strData_append]
      rfl
    have h97 : ((alertSubjectRaw record).data.take 97).length = 97 := by
      rw [List.length_take]
      have hlen : 100 < (alertSubjectRaw record).data.length := hgt
      omega
    refine ⟨hEq, ?_, ?_⟩
    · show (alertSubject record).data.length = 100
      rw [hData, List.length_append, h97]
      rfl
    · rw [hData]
      nth_rewrite 1 [← h97]
      exact drop_append_of_length _ _

/-- Witness for C7 at a record whose service name has 120 characters, so
the raw subject has 139 and truncation fires. -/
theorem C7_subject_witness :
    qualifiesForAlert recLong = true ∧
    (notify_error_sns cfg0 bk0 recLong =
       [Effect.snsPublish cfg0.SNS_TOPIC_ARN (alertSubject recLong) (alertMessage recLong)] ∧
     alertSubjectRaw recLong =
       serviceNameForAlert recLong ++ " " ++ levelOf recLong ++ " Notification" ∧
     (pyLen (alertSubjectRaw recLong) ≤ 100 → alertSubject recLong = alertSubjectRaw recLong) ∧
     (100 < pyLen (alertSubjectRaw recLong) →
       alertSubject recLong = pyTake (alertSubjectRaw recLong) 97 ++ "..." ∧
       pyLen (alertSubject recLong) = 100 ∧
       (alertSubject recLong).data.drop 97 = ['.', '.', '.'])) :=
  ⟨by decide, C7_subject cfg0 bk0 recLong (by decide) rfl⟩

/-- Counterexample to claim C8: the record with service_name svc, level
ERROR and client_name present but equal to the empty string is published
without the claimed Client prefix, because the source tests
client_name_raw for truthiness, not presence. -/
theorem C8_counterexample :
    dGet recEmptyClient "client_name" = some (JVal.vStr "") ∧
    notify_error_sns cfg0 bk0 recEmptyClient =
      [Effect.snsPublish "Default_Topic" "svc ERROR Notification"
        "Service Name: svc\nLevel: ERROR"] ∧
    ("Service Name: svc\nLevel: ERROR" : String) ≠
      "Client: " ++ pyStr (JVal.vStr "") ++ "\n\n" ++ "Service Name: svc\nLevel: ERROR" := by
  refine ⟨rfl, rfl, by decide⟩

/-- Claim C8 amended: for a qualifying record and a succeeding backend
the published body is alertMessage; the formatted lines are one Key:
Value line per truthy field (non-empty string, non-zero int, non-empty
nested mapping) in record order, keys with underscores replaced by spaces
and then title-cased, joined by newlines; and the Client prefix is added
exactly when client_name is present and truthy, not merely present. -/
theorem C8_body (cfg : Config) (bk : Backend) (record : LogEntry)
    (hq : qualifiesForAlert record = true) (hf : bk.snsFail = false) :
    notify_error_sns cfg bk record =
      [Effect.snsPublish cfg.SNS_TOPIC_ARN (alertSubject record) (alertMessage record)] ∧
    buildMessageParts record = record.filterMap (fun kv =>
      if pyTruthy kv.2 then
        some (pyTitle (underscoreToSpace kv.1) ++ ": " ++ pyStr kv.2)
      else none) ∧
    alertMessage record =
      (match dGet record "client_name" with
       | some v =>
           if pyTruthy v then
             "Client: " ++ pyStr v ++ "\n\n" ++
               String.intercalate "\n" (buildMessageParts record)
           else String.intercalate "\n" (buildMessageParts record)
       | none => String.intercalate "\n" (buildMessageParts record)) :=
  ⟨by simp [notify_error_sns, hq, hf], buildMessageParts_eq_filterMap record, rfl⟩

/-- Witness for the amended C8 at the worked example record. -/
theorem C8_body_witness :
    qualifiesForAlert recBilling = true ∧
    (notify_error_sns cfg0 bk0 recBilling =
       [Effect.snsPublish cfg0.SNS_TOPIC_ARN (alertSubject recBilling) (alertMessage recBilling)] ∧
     buildMessageParts recBilling = recBilling.filterMap (fun kv =>
       if pyTruthy kv.2 then
         some (pyTitle (underscoreToSpace kv.1) ++ ": " ++ pyStr kv.2)
       else none) ∧
     alertMessage recBilling =
       (match dGet recBilling "client_name" with
        | some v =>
            if pyTruthy v then
              "Client: " ++ pyStr v ++ "\n\n" ++
                String.intercalate "\n" (buildMessageParts recBilling)
            else String.intercalate "\n" (buildMessageParts recBilling)
        | none => String.intercalate "\n" (buildMessageParts recBilling))) :=
  ⟨by decide, C8_body cfg0 bk0 recBilling (by decide) rfl⟩

/-- Counterexample to claim C9: two requests whose header maps differ only
in the letter case of the auth header name are treated differently: the
uppercase-named variant is rejected with 403 while the lowercase-named one
proceeds past authentication, because headers.get uses the exact key. -/
theorem C9_counterexample :
    lambda_handler cfg0 bk0 d0
        ⟨[("X-Custom-Auth", "default-secret-token")], some (BodyParse.obj [])⟩ =
      (⟨403, "Unauthorized"⟩, [Effect.logInfo "Denied unauthorized request"]) ∧
    lambda_handler cfg0 bk0 d0
        ⟨[("x-custom-auth", "default-secret-token")], some (BodyParse.obj [])⟩ =
      (⟨400, missingFieldBody⟩, []) ∧
    lambda_handler cfg0 bk0 d0
        ⟨[("X-Custom-Auth", "default-secret-token")], some (BodyParse.obj [])⟩ ≠
      lambda_handler cfg0 bk0 d0
        ⟨[("x-custom-auth", "default-secret-token")], some (BodyParse.obj [])⟩ := by
  refine ⟨rfl, rfl, by decide⟩

/-- Claim C9 amended: the auth header lookup is case-sensitive on the
exact lowercase name x-custom-auth (API Gateway v2 delivers lowercase
header names, per the comment at line 160 of the source); a request whose
header map has no entry under that exact name is rejected with 403, even
when it carries the secret under a differently-cased name. -/
theorem C9_case_sensitive (cfg : Config) (bk : Backend) (today : String)
    (hs : List (String × String)) (b : Option BodyParse)
    (habs : ∀ p ∈ hs, p.1 ≠ "x-custom-auth") :
    lambda_handler cfg bk today ⟨hs, b⟩ =
      (⟨403, "Unauthorized"⟩, [Effect.logInfo "Denied unauthorized request"]) := by
  have h := hGet_eq_none hs "x-custom-auth" habs
  simp [lambda_handler, h]

/-- Witness for the amended C9: the secret offered only under an
uppercase-styled header name is rejected. -/
theorem C9_case_sensitive_witness :
    (∀ p ∈ [("X-Custom-Auth", "default-secret-token")], p.1 ≠ "x-custom-auth") ∧
    lambda_handler cfg0 bk0 d0
        ⟨[("X-Custom-Auth", "default-secret-token")], some (BodyParse.obj recBilling)⟩ =
      (⟨403, "Unauthorized"⟩, [Effect.logInfo "Denied unauthorized request"]) :=
  ⟨by decide, C9_case_sensitive cfg0 bk0 d0 [("X-Custom-Auth", "default-secret-token")]
    (some (BodyParse.obj recBilling)) (by decide)⟩

end LoggingService
